import Mathlib

/-!
# Verification of the Repeater-Alerts speech-segmentation core

A shallow embedding, in Lean 4, of the speech-accumulation state machine
(`audio_processor.py`: `AudioProcessor._handleSpeechAccumulation`,
`AudioProcessor._finalizeSpeechMessage`), the voice-activity classifier
(`VoiceActivityDetector.detectSpeech`) and the reconnection backoff policy
(`transcriber.py`: `BroadcastifyTranscriber.runContinuousTranscription`),
together with theorems settling the specification's claims about them.

Timestamps, durations, thresholds and PCM samples are modelled as rationals;
audio windows are lists of samples.  Python `is None` checks and exception
paths are modelled by `Option` and explicit branch functions.
-/

namespace RepeaterAlerts

/-- Configuration fields of `AudioProcessor.__init__` that the speech
accumulation logic reads (`max_speech_duration`, `silence_threshold`,
`min_message_duration`). -/
structure AccConfig where
  max_speech_duration : ℚ
  silence_threshold : ℚ
  min_message_duration : ℚ
  deriving DecidableEq, Repr

/-- The mutable speech-accumulation state of `AudioProcessor`
(`speech_segments`, `last_speech_time`, `speech_start_time`, `is_in_speech`,
`consecutive_silence_count`, `speech_chunk_count`). -/
structure AccState where
  speech_segments : List (List ℚ)
  last_speech_time : ℚ
  speech_start_time : ℚ
  is_in_speech : Bool
  consecutive_silence_count : ℕ
  speech_chunk_count : ℕ
  deriving DecidableEq, Repr

/-- The state set up by `AudioProcessor.__init__`: empty segment list,
zero timestamps and counters, not in speech. -/
def initAccState : AccState :=
  { speech_segments := []
    last_speech_time := 0
    speech_start_time := 0
    is_in_speech := false
    consecutive_silence_count := 0
    speech_chunk_count := 0 }

/-- `AudioProcessor._finalizeSpeechMessage`, success path (no concatenation
error): returns `None` when `speech_segments` is empty, leaving the state
untouched; otherwise concatenates the segments in order, resets every
accumulation field and returns the complete message. -/
def finalizeSpeechMessage (st : AccState) : Option (List ℚ) × AccState :=
  if st.speech_segments = [] then
    (none, st)
  else
    let complete_message := st.speech_segments.flatten
    (some complete_message,
      { speech_segments := []
        is_in_speech := false
        speech_start_time := 0
        last_speech_time := 0
        consecutive_silence_count := 0
        speech_chunk_count := 0 })

/-- The `except` branch of `AudioProcessor._finalizeSpeechMessage`
(lines 386–393), taken when `np.concatenate` raises: it returns `None` and
resets `speech_segments`, `is_in_speech`, `consecutive_silence_count` and
`speech_chunk_count` — but, unlike the success path, it does not touch
`speech_start_time` or `last_speech_time`. -/
def finalizeSpeechMessageOnError (st : AccState) : Option (List ℚ) × AccState :=
  (none,
    { st with
      speech_segments := []
      is_in_speech := false
      consecutive_silence_count := 0
      speech_chunk_count := 0 })

/-- `AudioProcessor._handleSpeechAccumulation`: one `observe` step of the
accumulator.  The Python method mutates `self` and returns
`Optional[np.ndarray]`; here it maps the incoming state to the returned
message together with the successor state. -/
def handleSpeechAccumulation (cfg : AccConfig) (st : AccState)
    (audio_chunk : List ℚ) (has_speech : Bool) (current_time : ℚ) :
    Option (List ℚ) × AccState :=
  if has_speech then
    if !st.is_in_speech then
      -- Start new speech segment (lines 292–298, then line 311)
      (none,
        { speech_segments := [audio_chunk]
          is_in_speech := true
          speech_start_time := current_time
          speech_chunk_count := 1
          consecutive_silence_count := 0
          last_speech_time := current_time })
    else
      -- Continue accumulating speech (lines 299–311)
      let st1 : AccState :=
        { st with
          speech_segments := st.speech_segments ++ [audio_chunk]
          speech_chunk_count := st.speech_chunk_count + 1
          consecutive_silence_count := 0 }
      let speech_duration := current_time - st1.speech_start_time
      if speech_duration ≥ cfg.max_speech_duration then
        finalizeSpeechMessage st1
      else
        (none, { st1 with last_speech_time := current_time })
  else
    if st.is_in_speech then
      -- Silence while accumulating (lines 315–355)
      let st1 : AccState :=
        { st with consecutive_silence_count := st.consecutive_silence_count + 1 }
      let silence_duration := current_time - st1.last_speech_time
      let st2 : AccState :=
        { st1 with speech_segments := st1.speech_segments ++ [audio_chunk] }
      let speech_duration := current_time - st2.speech_start_time
      let eff0 : ℚ :=
        if speech_duration > 15 then cfg.silence_threshold + 2
        else if speech_duration > 8 then cfg.silence_threshold + 1.5
        else if speech_duration > 4 then cfg.silence_threshold + 1
        else cfg.silence_threshold + 0.5
      let speech_density : ℚ :=
        (st2.speech_chunk_count : ℚ) / max 1 speech_duration
      let effective_silence_threshold : ℚ :=
        if speech_density < 0.8 then eff0 + 1 else eff0
      if silence_duration ≥ effective_silence_threshold ∧
          (st2.speech_chunk_count ≥ 2 ∧
            current_time - st2.speech_start_time ≥ cfg.min_message_duration) then
        finalizeSpeechMessage st2
      else if silence_duration ≥ cfg.silence_threshold * 3 then
        finalizeSpeechMessage st2
      else
        (none, st2)
    else
      (none, st)

/-- Run the accumulator over a list of `(window, isSpeech, timestamp)`
observations, collecting every emitted complete message in order. -/
def runAccumulation (cfg : AccConfig) :
    AccState → List (List ℚ × Bool × ℚ) → AccState × List (List ℚ)
  | st, [] => (st, [])
  | st, (w, b, t) :: rest =>
      let r := handleSpeechAccumulation cfg st w b t
      let res := runAccumulation cfg r.2 rest
      (res.1, r.1.toList ++ res.2)

/-! ## Voice-activity classifier (`VoiceActivityDetector.detectSpeech`) -/

/-- The threshold configuration of `VoiceActivityDetector.__init__`
(`energy_threshold`, `spectral_threshold`, `min_speech_duration`,
`sample_rate`). -/
structure VadConfig where
  energy_threshold : ℚ
  spectral_threshold : ℚ
  min_speech_duration : ℚ
  sample_rate : ℚ
  deriving DecidableEq, Repr

/-- The VAD thresholds installed by `AudioProcessor.__init__`
(energy 0.003, spectral 0.25, minimum duration 0.2 s, 16 kHz). -/
def operationalVad : VadConfig :=
  { energy_threshold := 0.003
    spectral_threshold := 0.25
    min_speech_duration := 0.2
    sample_rate := 16000 }

/-- `np.mean(audio ** 2)`: the mean of the squared samples. -/
def meanSquare (audio : List ℚ) : ℚ :=
  (audio.map fun s => s ^ 2).sum / (audio.length : ℚ)

/-- `VoiceActivityDetector.detectSpeech`.  The external spectral-centroid
capability (`librosa.feature.spectral_centroid` + `np.mean`) is passed in as
`centroid : Option ℚ` — `some c` when the DSP call succeeds with mean
centroid `c`, `none` when it raises, in which case the `except` branch
substitutes the already-normalized constant `0.5`.  The energy is
`np.sqrt(np.mean(audio ** 2))`, the RMS of the window; the square root
lives in `ℝ`, samples stay rational.  The result is the truth value of the
source's `is_speech` boolean. -/
def detectSpeech (cfg : VadConfig) (centroid : Option ℚ) (audio : List ℚ) : Prop :=
  if audio.length = 0 then
    False
  else
    let energy : ℝ := Real.sqrt ((meanSquare audio : ℚ) : ℝ)
    let normalized_centroid : ℚ :=
      match centroid with
      | some c => c / 4000
      | none => 0.5
    let duration : ℚ := (audio.length : ℚ) / cfg.sample_rate
    energy > (cfg.energy_threshold : ℝ) ∧
      normalized_centroid > cfg.spectral_threshold ∧
      duration ≥ cfg.min_speech_duration

/-! ## Reconnection backoff (`BroadcastifyTranscriber.runContinuousTranscription`) -/

/-- The delay state threaded through the 24/7 loop: `current_network_delay`,
`current_feed_outage_delay` and `consecutive_feed_errors` (lines 104–106). -/
structure BackoffState where
  current_network_delay : ℚ
  current_feed_outage_delay : ℚ
  consecutive_feed_errors : ℕ
  deriving DecidableEq, Repr

/-- `base_reconnect_delay = 10` (line 99). -/
def base_reconnect_delay : ℚ := 10
/-- `feed_outage_delay = 60` (line 100). -/
def feed_outage_delay : ℚ := 60
/-- `max_network_delay = 300` (line 101). -/
def max_network_delay : ℚ := 300
/-- `max_feed_outage_delay = 1800` (line 102). -/
def max_feed_outage_delay : ℚ := 1800

/-- The loop's initial delay state (lines 104–106). -/
def initBackoffState : BackoffState :=
  { current_network_delay := base_reconnect_delay
    current_feed_outage_delay := feed_outage_delay
    consecutive_feed_errors := 0 }

/-- The events of one iteration of the 24/7 loop that touch the delay
state, in source order:
* `resolveFailure` — `extractStreamUrl` returned no URL/name (lines 115–121);
* `resolveSuccess` — stream info retrieved successfully (line 127);
* `transcriptionSuccess` — a non-empty transcription was produced
  (lines 139–143);
* `streamDrop` — the audio generator exited normally (lines 148–151);
* `feedOutage` — `StreamURLError` was raised (lines 157–180);
* `unexpectedError` — any other exception (lines 181–188). -/
inductive LoopEvent
  | resolveFailure
  | resolveSuccess
  | transcriptionSuccess
  | streamDrop
  | feedOutage
  | unexpectedError
  deriving DecidableEq, Repr

/-- One event's effect on the delay state, paired with the delay slept
during that event (`none` when the event does not sleep).  Each branch is
the corresponding `time.sleep(...)` / update pair from
`runContinuousTranscription`. -/
def backoffStep (s : BackoffState) : LoopEvent → BackoffState × Option ℚ
  | .resolveFailure =>
      let d := min (s.current_network_delay * 1.5) max_network_delay
      ({ s with current_network_delay := d }, some s.current_network_delay)
  | .resolveSuccess =>
      ({ s with current_network_delay := base_reconnect_delay }, none)
  | .transcriptionSuccess =>
      ({ s with consecutive_feed_errors := 0,
                current_feed_outage_delay := feed_outage_delay }, none)
  | .streamDrop =>
      let d := min (s.current_network_delay * 1.2) max_network_delay
      ({ s with current_network_delay := d }, some s.current_network_delay)
  | .feedOutage =>
      let d := min (s.current_feed_outage_delay * 1.5) max_feed_outage_delay
      ({ s with consecutive_feed_errors := s.consecutive_feed_errors + 1,
                current_feed_outage_delay := d }, some s.current_feed_outage_delay)
  | .unexpectedError =>
      let d := min (s.current_network_delay * 1.5) max_network_delay
      ({ s with current_network_delay := d }, some s.current_network_delay)

/-- Run a sequence of loop events, collecting the slept delays in order. -/
def runBackoff : BackoffState → List LoopEvent → BackoffState × List ℚ
  | s, [] => (s, [])
  | s, e :: rest =>
      let r := backoffStep s e
      let res := runBackoff r.1 rest
      (res.1, r.2.toList ++ res.2)

/-! ## Theorems -/

/-- Claim C4: finalize/flush is idempotent in the emission sense — finalize
returns `None` whenever the windows list is empty, and since a successful
finalize empties the list, a second finalize with no `observe` in between
always returns nothing. -/
theorem finalize_idempotent_emission :
    (∀ st : AccState, st.speech_segments = [] →
      (finalizeSpeechMessage st).1 = none) ∧
    (∀ st : AccState,
      (finalizeSpeechMessage (finalizeSpeechMessage st).2).1 = none) := by
  constructor
  · intro st h
    simp [finalizeSpeechMessage, h]
  · intro st
    by_cases h : st.speech_segments = [] <;>
      simp [finalizeSpeechMessage, h]

/-- Witness for C4: a concrete double flush, once from a state with an empty
window list and once from a state holding one recorded window. -/
theorem finalize_idempotent_emission_witness :
    initAccState.speech_segments = [] ∧
    (finalizeSpeechMessage initAccState).1 = none ∧
    (finalizeSpeechMessage (finalizeSpeechMessage
      { initAccState with speech_segments := [[1, 2]] }).2).1 = none :=
  ⟨rfl, finalize_idempotent_emission.1 initAccState rfl,
    finalize_idempotent_emission.2 { initAccState with speech_segments := [[1, 2]] }⟩

/-- Claim C5: round-trip — the message emitted by finalize is exactly the
in-order concatenation of the recorded windows' sample data, and the
accumulator retains no window afterwards. -/
theorem finalize_roundtrip :
    ∀ st : AccState, st.speech_segments ≠ [] →
      (finalizeSpeechMessage st).1 = some st.speech_segments.flatten ∧
      (finalizeSpeechMessage st).2.speech_segments = [] := by
  intro st h
  simp [finalizeSpeechMessage, h]

/-- Witness for C5: two concrete recorded windows concatenate sample-exactly. -/
theorem finalize_roundtrip_witness :
    (finalizeSpeechMessage
        { initAccState with speech_segments := [[1, 2], [3]] }).1 =
      some [1, 2, 3] ∧
    (finalizeSpeechMessage
        { initAccState with speech_segments := [[1, 2], [3]] }).2.speech_segments = [] := by
  have h := finalize_roundtrip
    { initAccState with speech_segments := [[1, 2], [3]] } (by simp)
  simpa using h

/-- Counterexample for C9: on the concatenation-failure path the state is
*not* reset to the same Idle defaults as on the success path — the error
branch leaves `speech_start_time` and `last_speech_time` untouched, here
`7` and `5` instead of the success path's `0`. -/
theorem finalize_error_reset_counterexample :
    (finalizeSpeechMessageOnError
        { speech_segments := [[1]], last_speech_time := 5, speech_start_time := 7,
          is_in_speech := true, consecutive_silence_count := 1,
          speech_chunk_count := 1 }).2 ≠
      (finalizeSpeechMessage
        { speech_segments := [[1]], last_speech_time := 5, speech_start_time := 7,
          is_in_speech := true, consecutive_silence_count := 1,
          speech_chunk_count := 1 }).2 ∧
    (finalizeSpeechMessageOnError
        { speech_segments := [[1]], last_speech_time := 5, speech_start_time := 7,
          is_in_speech := true, consecutive_silence_count := 1,
          speech_chunk_count := 1 }).2.last_speech_time = 5 ∧
    (finalizeSpeechMessage
        { speech_segments := [[1]], last_speech_time := 5, speech_start_time := 7,
          is_in_speech := true, consecutive_silence_count := 1,
          speech_chunk_count := 1 }).2.last_speech_time = 0 := by
  refine ⟨?_, rfl, ?_⟩
  · intro h
    have := congrArg AccState.last_speech_time h
    simp [finalizeSpeechMessage, finalizeSpeechMessageOnError] at this
  · simp [finalizeSpeechMessage]

/-- Claim C9 (amended): on a concatenation failure finalize returns `None`
and resets the windows list, the Accumulating flag and both counters —
leaving `speech_start_time` and `last_speech_time` unchanged, unlike the
success path — and, being a total function, never propagates an exception. -/
theorem finalize_error_reset :
    ∀ st : AccState,
      finalizeSpeechMessageOnError st =
        (none,
          { st with
            speech_segments := []
            is_in_speech := false
            consecutive_silence_count := 0
            speech_chunk_count := 0 }) ∧
      (finalizeSpeechMessageOnError st).2.speech_start_time = st.speech_start_time ∧
      (finalizeSpeechMessageOnError st).2.last_speech_time = st.last_speech_time :=
  fun _ => ⟨rfl, rfl, rfl⟩

/-- Claim C10: from the Idle state `observe` never emits a message — a
non-speech window is a no-op, and a speech window only starts a new segment
(`windows = [w]`, `speechWindowCount = 1`) without consulting
`maxSpeechDuration` (the configuration is arbitrary here, including
`max_speech_duration = 0`). -/
theorem idle_observe_no_emit :
    ∀ (cfg : AccConfig) (st : AccState) (w : List ℚ) (b : Bool) (now : ℚ),
      st.is_in_speech = false →
      (handleSpeechAccumulation cfg st w b now).1 = none ∧
      (b = false → (handleSpeechAccumulation cfg st w b now).2 = st) ∧
      (b = true → (handleSpeechAccumulation cfg st w b now).2 =
        { speech_segments := [w], is_in_speech := true, speech_start_time := now,
          last_speech_time := now, speech_chunk_count := 1,
          consecutive_silence_count := 0 }) := by
  intro cfg st w b now h
  cases b <;> simp [handleSpeechAccumulation, h]

/-- Witness for C10: a speech window observed from the pristine Idle state,
under a configuration whose `max_speech_duration` is already exceeded
(`0`), still emits nothing. -/
theorem idle_observe_no_emit_witness :
    initAccState.is_in_speech = false ∧
    (handleSpeechAccumulation ⟨0, 4, 1⟩ initAccState [1] true 3).1 = none :=
  ⟨rfl, (idle_observe_no_emit ⟨0, 4, 1⟩ initAccState [1] true 3 rfl).1⟩

/-- Claim C6: network backoff — a stream-resolution failure sleeps the
current network delay and then multiplies it by 1.5 capped at 300 s, a
normal stream drop sleeps it and multiplies by 1.2 capped at 300 s,
successful stream resolution resets it to the 10 s base, and three
consecutive resolution failures from the initial state sleep
10 s, 15 s, 22.5 s. -/
theorem network_backoff :
    (∀ s : BackoffState,
      backoffStep s .resolveFailure =
        ({ s with current_network_delay := min (s.current_network_delay * 1.5) 300 },
          some s.current_network_delay)) ∧
    (∀ s : BackoffState,
      backoffStep s .streamDrop =
        ({ s with current_network_delay := min (s.current_network_delay * 1.2) 300 },
          some s.current_network_delay)) ∧
    (∀ s : BackoffState,
      (backoffStep s .resolveSuccess).1.current_network_delay = 10 ∧
      (backoffStep s .resolveSuccess).2 = none) ∧
    (runBackoff initBackoffState
        [.resolveFailure, .resolveFailure, .resolveFailure]).2 = [10, 15, 22.5] := by
  refine ⟨fun _ => rfl, fun _ => rfl, fun _ => ⟨rfl, rfl⟩, ?_⟩
  norm_num [runBackoff, backoffStep, initBackoffState, base_reconnect_delay,
    max_network_delay]

/-- Claim C7: feed-outage backoff — a feed outage is its own event kind
with its own delay: it sleeps the current feed-outage delay, bumps the
consecutive-failure counter, and multiplies the delay by 1.5 capped at
1800 s, starting from a 60 s base; a successful downstream transcription
resets the delay to 60 s and the counter to 0; and neither class of
failure touches the other's backoff state. -/
theorem feed_outage_backoff :
    initBackoffState.current_feed_outage_delay = 60 ∧
    (∀ s : BackoffState,
      backoffStep s .feedOutage =
        ({ s with
            consecutive_feed_errors := s.consecutive_feed_errors + 1,
            current_feed_outage_delay := min (s.current_feed_outage_delay * 1.5) 1800 },
          some s.current_feed_outage_delay)) ∧
    (∀ s : BackoffState,
      (backoffStep s .transcriptionSuccess).1.current_feed_outage_delay = 60 ∧
      (backoffStep s .transcriptionSuccess).1.consecutive_feed_errors = 0) ∧
    (∀ s : BackoffState,
      (backoffStep s .feedOutage).1.current_network_delay = s.current_network_delay) ∧
    (∀ s : BackoffState,
      (backoffStep s .resolveFailure).1.current_feed_outage_delay =
          s.current_feed_outage_delay ∧
      (backoffStep s .resolveFailure).1.consecutive_feed_errors =
          s.consecutive_feed_errors) :=
  ⟨rfl, fun _ => rfl, fun _ => ⟨rfl, rfl⟩, fun _ => rfl, fun _ => ⟨rfl, rfl⟩⟩

/-- Claim C2: a speech window observed while Accumulating is appended with
`speechWindowCount` incremented, and a message is emitted exactly when
`now - speechStartTime` reaches `maxSpeechDuration`; concretely, speech
windows 2 s apart under `maxSpeechDuration = 10` emit exactly at the sixth
window, the message holding all windows up to and including it. -/
theorem speech_step_max_duration :
    (∀ (cfg : AccConfig) (st : AccState) (w : List ℚ) (now : ℚ),
      st.is_in_speech = true →
      ((handleSpeechAccumulation cfg st w true now).1.isSome ↔
          now - st.speech_start_time ≥ cfg.max_speech_duration) ∧
      (∀ m, (handleSpeechAccumulation cfg st w true now).1 = some m →
          m = (st.speech_segments ++ [w]).flatten) ∧
      (¬ now - st.speech_start_time ≥ cfg.max_speech_duration →
        (handleSpeechAccumulation cfg st w true now).2 =
          { st with
            speech_segments := st.speech_segments ++ [w]
            speech_chunk_count := st.speech_chunk_count + 1
            consecutive_silence_count := 0
            last_speech_time := now })) ∧
    runAccumulation ⟨10, 4, 1⟩ initAccState
        [([0], true, 0), ([1], true, 2), ([2], true, 4), ([3], true, 6),
         ([4], true, 8), ([5], true, 10)] =
      (initAccState, [[0, 1, 2, 3, 4, 5]]) ∧
    (runAccumulation ⟨10, 4, 1⟩ initAccState
        [([0], true, 0), ([1], true, 2), ([2], true, 4), ([3], true, 6),
         ([4], true, 8)]).2 = [] := by
  refine ⟨?_, ?_, ?_⟩
  · intro cfg st w now h
    by_cases hd : now - st.speech_start_time ≥ cfg.max_speech_duration <;>
      simp [handleSpeechAccumulation, finalizeSpeechMessage, h, hd]
  · norm_num [runAccumulation, handleSpeechAccumulation, finalizeSpeechMessage,
      initAccState, List.cons_ne_nil]
  · norm_num [runAccumulation, handleSpeechAccumulation, finalizeSpeechMessage,
      initAccState, List.cons_ne_nil]

/-- Witness for C2: the sixth speech window of the concrete scenario, taken
as a single accumulating step — the preceding five windows are already
recorded, speech started at time 0, and at `now = 10` the step emits the
full concatenation. -/
theorem speech_step_max_duration_witness :
    ({ speech_segments := [[0], [1], [2], [3], [4]], last_speech_time := 8,
       speech_start_time := 0, is_in_speech := true,
       consecutive_silence_count := 0,
       speech_chunk_count := 5 } : AccState).is_in_speech = true ∧
    ((handleSpeechAccumulation ⟨10, 4, 1⟩
        { speech_segments := [[0], [1], [2], [3], [4]], last_speech_time := 8,
          speech_start_time := 0, is_in_speech := true,
          consecutive_silence_count := 0, speech_chunk_count := 5 }
        [5] true 10).1.isSome ↔ (10 : ℚ) - 0 ≥ 10) := by
  refine ⟨rfl, ?_⟩
  exact (speech_step_max_duration.1 ⟨10, 4, 1⟩
    { speech_segments := [[0], [1], [2], [3], [4]], last_speech_time := 8,
      speech_start_time := 0, is_in_speech := true,
      consecutive_silence_count := 0, speech_chunk_count := 5 }
    [5] 10 rfl).1

/-- Claim C3: the classifier returns `false` on an empty window; on a
non-empty window it returns `true` iff RMS energy exceeds the energy
threshold, the normalized spectral centroid (`centroid / 4000`, or the
substituted `0.5` when the DSP capability fails) exceeds the spectral
threshold, and the duration `len / sampleRate` reaches the minimum speech
duration; an all-zero window is always classified `false` (for any
non-negative energy threshold); and a DSP failure only substitutes the
neutral centroid — it never escapes the classifier. -/
theorem detect_speech_spec :
    (∀ (cfg : VadConfig) (c : Option ℚ), ¬ detectSpeech cfg c []) ∧
    (∀ (cfg : VadConfig) (c : Option ℚ) (audio : List ℚ), audio ≠ [] →
      (detectSpeech cfg c audio ↔
        Real.sqrt (((audio.map fun s => s ^ 2).sum / (audio.length : ℚ) : ℚ) : ℝ) >
            (cfg.energy_threshold : ℝ) ∧
          (match c with
            | some cen => cen / 4000
            | none => (0.5 : ℚ)) > cfg.spectral_threshold ∧
          (audio.length : ℚ) / cfg.sample_rate ≥ cfg.min_speech_duration)) ∧
    (∀ (cfg : VadConfig) (audio : List ℚ),
      detectSpeech cfg none audio ↔ detectSpeech cfg (some 2000) audio) ∧
    (∀ (cfg : VadConfig) (c : Option ℚ) (audio : List ℚ),
      0 ≤ cfg.energy_threshold → (∀ s ∈ audio, s = 0) →
      ¬ detectSpeech cfg c audio) := by
  have hiff : ∀ (cfg : VadConfig) (c : Option ℚ) (audio : List ℚ), audio ≠ [] →
      (detectSpeech cfg c audio ↔
        Real.sqrt (((audio.map fun s => s ^ 2).sum / (audio.length : ℚ) : ℚ) : ℝ) >
            (cfg.energy_threshold : ℝ) ∧
          (match c with
            | some cen => cen / 4000
            | none => (0.5 : ℚ)) > cfg.spectral_threshold ∧
          (audio.length : ℚ) / cfg.sample_rate ≥ cfg.min_speech_duration) := by
    intro cfg c audio h
    simp [detectSpeech, meanSquare, List.length_eq_zero, h]
  refine ⟨?_, hiff, ?_, ?_⟩
  · intro cfg c
    simp [detectSpeech]
  · intro cfg audio
    by_cases h : audio.length = 0 <;>
      simp [detectSpeech, h]
    norm_num
  · intro cfg c audio he h0
    by_cases h : audio = []
    · subst h
      simp [detectSpeech]
    · intro hd
      rw [hiff cfg c audio h] at hd
      have hsq : (audio.map fun s => s ^ 2).sum = 0 := by
        apply List.sum_eq_zero
        intro x hx
        obtain ⟨s, hs, rfl⟩ := List.mem_map.mp hx
        rw [h0 s hs]
        ring
      obtain ⟨h1, -, -⟩ := hd
      rw [hsq, zero_div] at h1
      have hz : Real.sqrt (((0 : ℚ) : ℝ)) = 0 := by norm_num
      rw [hz] at h1
      have hthr : (0 : ℝ) ≤ (cfg.energy_threshold : ℝ) := by exact_mod_cast he
      linarith

/-- The silence-finalization condition as the specification words it
(§4.3 silence policy): adaptive threshold `silenceThreshold + bump + density
adjustment`, sufficient content, and the `3 × silenceThreshold` safety
valve.  Stated independently of the code so the claim compares the two. -/
def specShouldFinalizeOnSilence (cfg : AccConfig) (st : AccState) (now : ℚ) : Prop :=
  let silenceDuration := now - st.last_speech_time
  let speechDuration := now - st.speech_start_time
  let bump : ℚ :=
    if speechDuration > 15 then 2
    else if speechDuration > 8 then 1.5
    else if speechDuration > 4 then 1
    else 0.5
  let densityBump : ℚ :=
    if (st.speech_chunk_count : ℚ) / max 1 speechDuration < 0.8 then 1 else 0
  let effective := cfg.silence_threshold + bump + densityBump
  let sufficientContent : Prop :=
    st.speech_chunk_count ≥ 2 ∧ speechDuration ≥ cfg.min_message_duration
  (silenceDuration ≥ effective ∧ sufficientContent) ∨
    silenceDuration ≥ 3 * cfg.silence_threshold

instance (cfg : AccConfig) (st : AccState) (now : ℚ) :
    Decidable (specShouldFinalizeOnSilence cfg st now) := by
  unfold specShouldFinalizeOnSilence
  infer_instance

set_option maxHeartbeats 2000000 in
/-- The silence branch of `_handleSpeechAccumulation`, characterized: while
Accumulating, a non-speech window either finalizes (exactly under the
specification's silence policy) or appends the window and bumps the
silence counter. -/
theorem handle_silence_eq (cfg : AccConfig) (st : AccState) (w : List ℚ)
    (now : ℚ) (h : st.is_in_speech = true) :
    handleSpeechAccumulation cfg st w false now =
      if specShouldFinalizeOnSilence cfg st now then
        (some (st.speech_segments ++ [w]).flatten,
          { speech_segments := [], is_in_speech := false, speech_start_time := 0,
            last_speech_time := 0, consecutive_silence_count := 0,
            speech_chunk_count := 0 })
      else
        (none,
          { st with
            consecutive_silence_count := st.consecutive_silence_count + 1
            speech_segments := st.speech_segments ++ [w] }) := by
  have hspec : specShouldFinalizeOnSilence cfg st now ↔
      ((now - st.last_speech_time ≥
          (if (st.speech_chunk_count : ℚ) /
                max 1 (now - st.speech_start_time) < 0.8
           then (if now - st.speech_start_time > 15 then cfg.silence_threshold + 2
                 else if now - st.speech_start_time > 8 then cfg.silence_threshold + 1.5
                 else if now - st.speech_start_time > 4 then cfg.silence_threshold + 1
                 else cfg.silence_threshold + 0.5) + 1
           else (if now - st.speech_start_time > 15 then cfg.silence_threshold + 2
                 else if now - st.speech_start_time > 8 then cfg.silence_threshold + 1.5
                 else if now - st.speech_start_time > 4 then cfg.silence_threshold + 1
                 else cfg.silence_threshold + 0.5)) ∧
         (st.speech_chunk_count ≥ 2 ∧
           now - st.speech_start_time ≥ cfg.min_message_duration)) ∨
        now - st.last_speech_time ≥ cfg.silence_threshold * 3) := by
    rw [specShouldFinalizeOnSilence]
    split_ifs <;>
      (constructor <;> rintro (⟨ha, hb⟩ | hc) <;>
        first
          | exact Or.inl ⟨by linarith, hb⟩
          | exact Or.inr (by linarith))
  simp only [hspec]
  clear hspec
  simp only [handleSpeechAccumulation, h, Bool.false_eq_true, if_false,
    Bool.not_true, if_true, ite_true, ite_false]
  split_ifs <;>
    first
      | rfl
      | (simp [finalizeSpeechMessage, List.append_eq_nil]
         done)
      | tauto

/-- Claim C1: on a non-speech window while Accumulating, the accumulator
finalizes and returns the accumulated message exactly under the
specification's silence policy (`specShouldFinalizeOnSilence`); otherwise
it stays Accumulating, merely appending the window and bumping the silence
counter, and returns no message. -/
theorem silence_policy_finalize :
    ∀ (cfg : AccConfig) (st : AccState) (w : List ℚ) (now : ℚ),
      st.is_in_speech = true →
      ((handleSpeechAccumulation cfg st w false now).1 =
          some (st.speech_segments ++ [w]).flatten ↔
        specShouldFinalizeOnSilence cfg st now) ∧
      (¬ specShouldFinalizeOnSilence cfg st now →
        handleSpeechAccumulation cfg st w false now =
          (none,
            { st with
              consecutive_silence_count := st.consecutive_silence_count + 1
              speech_segments := st.speech_segments ++ [w] })) := by
  intro cfg st w now h
  rw [handle_silence_eq cfg st w now h]
  by_cases hs : specShouldFinalizeOnSilence cfg st now <;> simp [hs]

/-- Witness for C1: a concrete accumulating state (two speech windows, 13 s
of speech, silent for the last 13 s, threshold 4 s); the silence policy
fires, so the step returns the concatenated message. -/
theorem silence_policy_finalize_witness :
    ({ speech_segments := [[1], [2]], last_speech_time := 0,
       speech_start_time := 0, is_in_speech := true,
       consecutive_silence_count := 0,
       speech_chunk_count := 2 } : AccState).is_in_speech = true ∧
    ((handleSpeechAccumulation ⟨30, 4, 1⟩
        { speech_segments := [[1], [2]], last_speech_time := 0,
          speech_start_time := 0, is_in_speech := true,
          consecutive_silence_count := 0, speech_chunk_count := 2 }
        [0] false 13).1 = some [1, 2, 0] ↔
      specShouldFinalizeOnSilence ⟨30, 4, 1⟩
        { speech_segments := [[1], [2]], last_speech_time := 0,
          speech_start_time := 0, is_in_speech := true,
          consecutive_silence_count := 0, speech_chunk_count := 2 } 13) := by
  refine ⟨rfl, ?_⟩
  have := (silence_policy_finalize ⟨30, 4, 1⟩
    { speech_segments := [[1], [2]], last_speech_time := 0,
      speech_start_time := 0, is_in_speech := true,
      consecutive_silence_count := 0, speech_chunk_count := 2 }
    [0] 13 rfl).1
  simpa using this

/-- The C8 invariant: the accumulator is flagged as Accumulating exactly
when some window is recorded. -/
def AccInv (st : AccState) : Prop :=
  st.is_in_speech = true ↔ st.speech_segments ≠ []

/-- Finalize preserves the C8 invariant. -/
theorem accInv_finalize (st : AccState) (h : AccInv st) :
    AccInv (finalizeSpeechMessage st).2 := by
  by_cases hs : st.speech_segments = []
  · simpa [finalizeSpeechMessage, hs] using h
  · simp [finalizeSpeechMessage, hs, AccInv]

/-- One `observe` step preserves the C8 invariant. -/
theorem accInv_handle (cfg : AccConfig) (st : AccState) (w : List ℚ)
    (b : Bool) (t : ℚ) (h : AccInv st) :
    AccInv (handleSpeechAccumulation cfg st w b t).2 := by
  cases b
  · by_cases hsp : st.is_in_speech = true
    · rw [handleSpeechAccumulation]
      simp only [hsp, Bool.false_eq_true, if_false, if_true, ite_true, ite_false]
      split_ifs <;>
        first
          | exact accInv_finalize _ (by simp [AccInv, hsp])
          | simp [AccInv, hsp]
    · simp only [handleSpeechAccumulation, hsp, Bool.false_eq_true, if_false,
        ite_false]
      simpa [AccInv, hsp] using h
  · by_cases hsp : st.is_in_speech = true
    · rw [handleSpeechAccumulation]
      simp only [hsp, Bool.not_true, if_true, ite_true, ite_false]
      split_ifs <;>
        first
          | exact accInv_finalize _ (by simp [AccInv, hsp])
          | simp [AccInv, hsp]
    · simp only [handleSpeechAccumulation, hsp]
      simp [AccInv]

/-- The accumulator states reachable from the freshly initialized state
through any sequence of `observe` (`_handleSpeechAccumulation`) and
finalize/flush (`_finalizeSpeechMessage`) calls. -/
inductive ReachableAcc (cfg : AccConfig) : AccState → Prop
  | init : ReachableAcc cfg initAccState
  | observe {st : AccState} (w : List ℚ) (b : Bool) (t : ℚ) :
      ReachableAcc cfg st →
      ReachableAcc cfg (handleSpeechAccumulation cfg st w b t).2
  | flush {st : AccState} :
      ReachableAcc cfg st → ReachableAcc cfg (finalizeSpeechMessage st).2

/-- Claim C8: in every reachable accumulator state the windows list is
non-empty exactly when the status is Accumulating (`is_in_speech`); in
particular every transition to Idle leaves the list empty. -/
theorem windows_nonempty_iff_accumulating :
    ∀ (cfg : AccConfig) (st : AccState), ReachableAcc cfg st →
      (st.is_in_speech = true ↔ st.speech_segments ≠ []) := by
  intro cfg st h
  induction h with
  | init => simp [initAccState]
  | observe w b t _ ih => exact accInv_handle _ _ w b t ih
  | flush _ ih => exact accInv_finalize _ ih

/-- Witness for C8: the invariant at the state reached by observing one
speech window from the initial state. -/
theorem windows_nonempty_iff_accumulating_witness :
    ((handleSpeechAccumulation ⟨30, 4, 1⟩ initAccState [1] true 0).2.is_in_speech
        = true ↔
      (handleSpeechAccumulation ⟨30, 4, 1⟩ initAccState [1] true 0).2.speech_segments
        ≠ []) :=
  windows_nonempty_iff_accumulating ⟨30, 4, 1⟩ _
    (ReachableAcc.observe [1] true 0 ReachableAcc.init)

/-- Witness for C3: the all-zero window under the operational thresholds,
with the DSP capability failing, is classified as non-speech. -/
theorem detect_speech_spec_witness :
    (0 : ℚ) ≤ operationalVad.energy_threshold ∧
    ¬ detectSpeech operationalVad none [0, 0, 0] :=
  ⟨by norm_num [operationalVad],
    detect_speech_spec.2.2.2 operationalVad none [0, 0, 0]
      (by norm_num [operationalVad]) (by simp)⟩

end RepeaterAlerts
